import Mathlib

/-!
Verification development for the gomoku-server repository.

We give a shallow embedding of the game engine (`app/game.py`), the room
manager (`app/room.py`) and the websocket dispatcher (`app/ws_handler.py`)
as pure Lean functions, and prove properties of them.

Conventions of the embedding:
* Python strings are Lean `String`s; colors are the strings `"black"` and
  `"white"` exactly as in the source.
* The board is a list of rows of `Option String` cells, mirroring the
  Python `list[list[str | None]]`; reads/writes use `boardGet`/`boardSet`,
  which model Python in-range list indexing (every access in the source is
  bounds-checked before it happens, or reached only after validation).
* Client row/col coordinates are `Int` (Python ints may be negative).
* Python dicts are association lists with first-match lookup; websocket
  handles are opaque `Nat` ids; asyncio tasks are not executed — each
  delayed task body is embedded as the pure state transformer it performs
  when it fires, and task bookkeeping is kept as plain data.
* Time is kept in integral time units (`Int`); `time.monotonic()` readings
  become explicit `now` parameters.
-/

/-- `BOARD_SIZE = 15` from `app/game.py`. -/
def BOARD_SIZE : Nat := 15

/-- A board cell: `None` or a color string, as in `app/game.py`. -/
abbrev Cell := Option String

/-- The board, `list[list[str | None]]` in `app/game.py`. -/
abbrev Board := List (List Cell)

/-- The four scan directions of `app/game.py` (`DIRECTIONS`):
horizontal, vertical, diagonal down-right, diagonal up-right. -/
def DIRECTIONS : List (Int × Int) := [(0, 1), (1, 0), (1, 1), (1, -1)]

/-- In-range read `board[r][c]` (Python list indexing; every use in the
source is guarded by a bounds check or prior validation). -/
def boardGet (b : Board) (r c : Nat) : Cell :=
  (b.getD r []).getD c none

/-- In-range write `board[r][c] = v`. -/
def boardSet (b : Board) (r c : Nat) (v : Cell) : Board :=
  b.set r ((b.getD r []).set c v)

/-- A well-formed board: 15 rows of 15 cells, the shape `GameState.__init__`
creates. -/
def BoardWF (b : Board) : Prop :=
  b.length = BOARD_SIZE ∧ ∀ row ∈ b, row.length = BOARD_SIZE

/-- `GameState` from `app/game.py`. -/
structure GameState where
  board : Board
  current_turn : String
  move_count : Nat
  is_game_over : Bool
  winner : Option String
  deriving Repr, DecidableEq

/-- `GameState.__init__`: empty 15×15 board, black to move. -/
def GameState.init : GameState where
  board := List.replicate BOARD_SIZE (List.replicate BOARD_SIZE none)
  current_turn := "black"
  move_count := 0
  is_game_over := false
  winner := none

/-- `GameState.validate_move` from `app/game.py`, checks in source order. -/
def GameState.validate_move (g : GameState) (row col : Int) (color : String) :
    Option String :=
  if g.is_game_over then some "Game is already over"
  else if color ≠ g.current_turn then some "Not your turn"
  else if row < 0 ∨ (BOARD_SIZE : Int) ≤ row ∨ col < 0 ∨ (BOARD_SIZE : Int) ≤ col then
    some "Coordinates out of bounds"
  else if boardGet g.board row.toNat col.toNat ≠ none then
    some "Cell is already occupied"
  else none

/-- One scan arm of `GameState.check_win`: the `for i in range(1, 5)` loop
stepping by `(dr, dc)` from `(r, c)`, counting contiguous same-color cells
and breaking at a bound or a mismatch.  The fuel argument is the remaining
number of iterations (4 at the top-level call). -/
def scanDir (b : Board) (color : String) (dr dc : Int) : Int → Int → Nat → Nat
  | _, _, 0 => 0
  | r, c, n + 1 =>
    if r + dr < 0 ∨ (BOARD_SIZE : Int) ≤ r + dr
        ∨ c + dc < 0 ∨ (BOARD_SIZE : Int) ≤ c + dc then 0
    else if boardGet b (r + dr).toNat (c + dc).toNat ≠ some color then 0
    else scanDir b color dr dc (r + dr) (c + dc) n + 1

/-- `GameState.check_win` from `app/game.py`: the last move at `(row, col)`
wins when, in one of the four directions, `1 +` the positive-arm count `+`
the negative-arm count reaches 5.  The negative arm steps by `(-dr, -dc)`,
exactly the source's `row - dr * i, col - dc * i`. -/
def check_win (b : Board) (row col : Int) : Bool :=
  match boardGet b row.toNat col.toNat with
  | none => false
  | some color =>
    DIRECTIONS.any fun d =>
      decide (5 ≤ 1 + scanDir b color d.1 d.2 row col 4
                    + scanDir b color (-d.1) (-d.2) row col 4)

/-- `GameState.is_draw` from `app/game.py`. -/
def GameState.is_draw (g : GameState) : Bool :=
  decide (BOARD_SIZE * BOARD_SIZE ≤ g.move_count)

/-- `GameState.place_stone` from `app/game.py`: unconditional write,
increment `move_count`, then win check / draw check / turn flip.
Returns the new state and the `endedBool`. -/
def GameState.place_stone (g : GameState) (row col : Int) (color : String) :
    GameState × Bool :=
  let b2 := boardSet g.board row.toNat col.toNat (some color)
  let g1 : GameState := { g with board := b2, move_count := g.move_count + 1 }
  if check_win b2 row col then
    ({ g1 with is_game_over := true, winner := some color }, true)
  else if g1.is_draw then
    ({ g1 with is_game_over := true, winner := none }, true)
  else
    ({ g1 with current_turn := if color = "black" then "white" else "black" }, false)

example : GameState.init.validate_move 7 7 "black" = none := by decide
example : GameState.init.validate_move 0 0 "white" = some "Not your turn" := by decide
example : GameState.init.validate_move (-1) 0 "black" = some "Coordinates out of bounds" := by
  decide
example : (GameState.init.place_stone 7 7 "black").1.current_turn = "white" := by decide

/-! ## `app/room.py`: rooms and the room manager

Python dicts (`RoomManager.rooms`, `RoomManager._ws_to_room`,
`Room.disconnect_tasks`) become association lists with first-match lookup;
keys are unique by construction in the source.  A `dict` insert of an
existing key overwrites in place; of a fresh key it appends. -/

/-- `dict.get(k)`: first-match association-list lookup. -/
def alistGet {α β : Type} [BEq α] (l : List (α × β)) (k : α) : Option β :=
  (l.find? (fun e => e.1 == k)).map (fun e => e.2)

/-- `dict[k] = v`: overwrite the existing entry, or append a new one. -/
def alistSet {α β : Type} [BEq α] (l : List (α × β)) (k : α) (v : β) :
    List (α × β) :=
  match l with
  | [] => [(k, v)]
  | e :: rest => if e.1 == k then (k, v) :: rest else e :: alistSet rest k v

/-- `dict.pop(k, None)`, the removal part: drop the entry with key `k`. -/
def alistRemove {α β : Type} [BEq α] (l : List (α × β)) (k : α) :
    List (α × β) :=
  match l with
  | [] => []
  | e :: rest => if e.1 == k then rest else e :: alistRemove rest k

/-- `TURN_TIMEOUT = 30` from `app/room.py`, in time units. -/
def TURN_TIMEOUT : Int := 30

/-- `Player` from `app/room.py`; the websocket handle is an opaque id. -/
structure Player where
  ws : Nat
  token : String
  color : String
  connected : Bool := true
  deriving Repr, DecidableEq

/-- `Room` from `app/room.py`.  `turn_timer_active` stands for holding a
live `turn_timer_task`; `disconnect_tasks` keeps the tokens that key live
disconnect-guard tasks (the dict's keys — the task objects themselves are
scheduler state). -/
structure Room where
  room_id : String
  players : List Player := []
  game : GameState := GameState.init
  game_started : Bool := false
  turn_timer_active : Bool := false
  turn_timer_start : Int := 0
  disconnect_tasks : List String := []
  deriving Repr, DecidableEq

/-- `Room.timer_remaining` from `app/room.py`, at monotonic time `now`. -/
def Room.timer_remaining (room : Room) (now : Int) : Int :=
  if room.turn_timer_start = 0 then TURN_TIMEOUT
  else max (TURN_TIMEOUT - (now - room.turn_timer_start)) 0

/-- `Room.get_player_by_token`. -/
def Room.get_player_by_token (room : Room) (token : String) : Option Player :=
  room.players.find? (fun p => p.token == token)

/-- `Room.get_player_by_ws`. -/
def Room.get_player_by_ws (room : Room) (ws : Nat) : Option Player :=
  room.players.find? (fun p => p.ws == ws)

/-- `Room.get_opponent`: the first other player.  The source compares
object identity (`p is not player`); tokens are unique per room, so token
inequality is the faithful pure rendering. -/
def Room.get_opponent (room : Room) (player : Player) : Option Player :=
  room.players.find? (fun p => p.token != player.token)

/-- Server → client messages, from `app/models.py`. -/
inductive Msg where
  | room_created (room_id player_token color : String)
  | player_joined (color : String)
  | game_started (your_color : String)
  | stone_placed (row col : Int) (color : String) (next_turn : Option String)
  | game_over (winner : Option String) (reason : String)
  | state_sync (board : Board) (current_turn : String) (move_count : Nat)
      (your_color : String) (timer_remaining : Int)
  | turn_timer (remaining : Int)
  | opponent_disconnected
  | opponent_reconnected
  | error (message : String)
  deriving Repr, DecidableEq

/-- A batch of sends: `(target websocket, message)` in emission order. -/
abbrev Sends := List (Nat × Msg)

/-- `Room.broadcast`: deliver to every connected player (best-effort sends
are modelled as the list of attempted deliveries). -/
def Room.broadcast (room : Room) (m : Msg) : Sends :=
  (room.players.filter (fun p => p.connected)).map (fun p => (p.ws, m))

/-- `Room.send_to`: deliver to one player if connected, else nothing. -/
def Room.send_to (_room : Room) (player : Player) (m : Msg) : Sends :=
  if player.connected then [(player.ws, m)] else []

/-- Replace the first player matching the token (the source looks the
player up and mutates that object in place). -/
def updatePlayerByToken (ps : List Player) (token : String)
    (f : Player → Player) : List Player :=
  match ps with
  | [] => []
  | p :: rest =>
    if p.token == token then f p :: rest
    else p :: updatePlayerByToken rest token f

/-- Replace the first player matching the websocket handle. -/
def updatePlayerByWs (ps : List Player) (ws : Nat)
    (f : Player → Player) : List Player :=
  match ps with
  | [] => []
  | p :: rest =>
    if p.ws == ws then f p :: rest
    else p :: updatePlayerByWs rest ws f

/-- The `RoomManager`'s mutable state: `rooms` and `_ws_to_room`. -/
structure ManagerState where
  rooms : List (String × Room) := []
  ws_to_room : List (Nat × String) := []
  deriving Repr, DecidableEq

namespace RoomManager

/-- `RoomManager.get_room_for_ws`. -/
def get_room_for_ws (mgr : ManagerState) (ws : Nat) : Option Room :=
  match alistGet mgr.ws_to_room ws with
  | none => none
  | some room_id => alistGet mgr.rooms room_id

/-- `RoomManager._start_turn_timer`: cancel any running clock and start a
fresh 30-unit countdown at time `now` (the spawned `timer_loop` task's
expiry body is `timer_loop_expire` below). -/
def start_turn_timer (room : Room) (now : Int) : Room :=
  { room with turn_timer_active := true, turn_timer_start := now }

/-- `RoomManager.join_room`.  The fresh `uuid4` token and the
`time.monotonic()` reading are explicit parameters. -/
def join_room (mgr : ManagerState) (ws : Nat) (room_id : String)
    (token : String) (now : Int) : ManagerState × Sends :=
  match alistGet mgr.rooms room_id with
  | none => (mgr, [(ws, Msg.error "Room not found")])
  | some room =>
    if 2 ≤ room.players.length then (mgr, [(ws, Msg.error "Room is full")])
    else if room.game.is_game_over then
      (mgr, [(ws, Msg.error "Game already ended")])
    else
      let player : Player := { ws := ws, token := token, color := "white" }
      let room1 := { room with players := room.players ++ [player] }
      let host := room1.players.headD player
      let room2 := start_turn_timer { room1 with game_started := true } now
      let msgs : Sends :=
        [(ws, Msg.room_created room_id token "white")]
          ++ room2.send_to host (Msg.player_joined "white")
          ++ (room2.players.map
                (fun p => room2.send_to p (Msg.game_started p.color))).flatten
      ({ rooms := alistSet mgr.rooms room_id room2,
         ws_to_room := alistSet mgr.ws_to_room ws room_id }, msgs)

/-- `RoomManager.place_stone` (move submission).  `now` is the
`time.monotonic()` reading taken when the turn clock is restarted. -/
def place_stone (mgr : ManagerState) (ws : Nat) (row col : Int) (now : Int) :
    ManagerState × Sends :=
  match alistGet mgr.ws_to_room ws with
  | none => (mgr, [(ws, Msg.error "Not in a room")])
  | some room_id =>
    match alistGet mgr.rooms room_id with
    | none => (mgr, [(ws, Msg.error "Not in a room")])
    | some room =>
      if !room.game_started then
        (mgr, [(ws, Msg.error "Game not started yet")])
      else
        match room.get_player_by_ws ws with
        | none => (mgr, [])
        | some player =>
          match room.game.validate_move row col player.color with
          | some err => (mgr, [(ws, Msg.error err)])
          | none =>
            let res := room.game.place_stone row col player.color
            let game_ended := res.2
            let next_turn := if game_ended then none else some res.1.current_turn
            let room1 := { room with game := res.1 }
            let placedMsgs :=
              room1.broadcast (Msg.stone_placed row col player.color next_turn)
            if game_ended then
              let reason := if res.1.winner.isSome then "five_in_row" else "draw"
              let room2 := { room1 with turn_timer_active := false }
              ({ mgr with rooms := alistSet mgr.rooms room_id room2 },
               placedMsgs ++ room2.broadcast (Msg.game_over res.1.winner reason))
            else
              let room2 := start_turn_timer room1 now
              ({ mgr with rooms := alistSet mgr.rooms room_id room2 },
               placedMsgs)

/-- `RoomManager.reconnect`.  Popping the token from `disconnect_tasks`
and cancelling the task is modelled by dropping the token; `now` is the
`time.monotonic()` reading behind `room.timer_remaining`. -/
def reconnect (mgr : ManagerState) (ws : Nat) (room_id player_token : String)
    (now : Int) : ManagerState × Sends :=
  match alistGet mgr.rooms room_id with
  | none => (mgr, [(ws, Msg.error "Room not found")])
  | some room =>
    match room.get_player_by_token player_token with
    | none => (mgr, [(ws, Msg.error "Invalid player token")])
    | some player =>
      let player1 := { player with ws := ws, connected := true }
      let room1 :=
        { room with
            disconnect_tasks := room.disconnect_tasks.erase player_token,
            players := updatePlayerByToken room.players player_token
              (fun p => { p with ws := ws, connected := true }) }
      let syncMsgs :=
        room1.send_to player1
          (Msg.state_sync room1.game.board room1.game.current_turn
            room1.game.move_count player1.color (room1.timer_remaining now))
      let oppMsgs :=
        match room1.get_opponent player1 with
        | some opponent =>
          if opponent.connected then
            room1.send_to opponent Msg.opponent_reconnected
          else []
        | none => []
      ({ rooms := alistSet mgr.rooms room_id room1,
         ws_to_room := alistSet mgr.ws_to_room ws room_id }, syncMsgs ++ oppMsgs)

/-- `RoomManager._cleanup_room`: pop the room from the directory and cancel
its tasks (`_ws_to_room` is not touched by the source). -/
def cleanup_room (mgr : ManagerState) (room_id : String) : ManagerState :=
  { mgr with rooms := alistRemove mgr.rooms room_id }

/-- `RoomManager.handle_disconnect`: pop the connection mapping, mark the
player disconnected, then either notify the opponent and register a
disconnect-guard task, or tear the room down immediately. -/
def handle_disconnect (mgr : ManagerState) (ws : Nat) : ManagerState × Sends :=
  match alistGet mgr.ws_to_room ws with
  | none => (mgr, [])
  | some room_id =>
    let mgr1 := { mgr with ws_to_room := alistRemove mgr.ws_to_room ws }
    match alistGet mgr1.rooms room_id with
    | none => (mgr1, [])
    | some room =>
      match room.get_player_by_ws ws with
      | none => (mgr1, [])
      | some player =>
        let room1 :=
          { room with
              players := updatePlayerByWs room.players ws
                (fun p => { p with connected := false }) }
        match room1.get_opponent player with
        | some opponent =>
          if opponent.connected then
            let room2 :=
              { room1 with
                  disconnect_tasks := room1.disconnect_tasks ++ [player.token] }
            ({ mgr1 with rooms := alistSet mgr1.rooms room_id room2 },
             room2.send_to opponent Msg.opponent_disconnected)
          else (cleanup_room mgr1 room_id, [])
        | none => (cleanup_room mgr1 room_id, [])

/-- The body of the `cleanup_after_timeout` closure in
`RoomManager.handle_disconnect`, as the pure transformer it performs when
the 60-unit grace period fires.  The closure captures the room, the
disconnected player and the opponent found at disconnect time; we pass the
room id, the player's token and the opponent's (immutable) color and read
the current state through them — valid while the room is registered, which
holds whenever the guard is still alive, since `_cleanup_room` cancels all
guards of a room it removes. -/
def cleanup_after_timeout (mgr : ManagerState)
    (room_id player_token opponent_color : String) : ManagerState × Sends :=
  match alistGet mgr.rooms room_id with
  | none => (mgr, [])
  | some room =>
    match room.get_player_by_token player_token with
    | none => (mgr, [])
    | some player =>
      if player.connected then (mgr, [])
      else if !room.game.is_game_over && room.game_started then
        let room1 :=
          { room with
              game := { room.game with
                          is_game_over := true,
                          winner := some opponent_color } }
        (cleanup_room { mgr with rooms := alistSet mgr.rooms room_id room1 }
           room_id,
         room1.broadcast (Msg.game_over (some opponent_color) "disconnect"))
      else (cleanup_room mgr room_id, [])

/-- The post-loop block of the `timer_loop` closure in
`RoomManager._start_turn_timer`: what the Turn Clock does when the 30-unit
budget has elapsed.  The closure captures the room; we pass its id. -/
def timer_loop_expire (mgr : ManagerState) (room_id : String) :
    ManagerState × Sends :=
  match alistGet mgr.rooms room_id with
  | none => (mgr, [])
  | some room =>
    if room.game.is_game_over then (mgr, [])
    else
      let loser_color := room.game.current_turn
      let winner_color := if loser_color = "black" then "white" else "black"
      let room1 :=
        { room with
            game := { room.game with
                        is_game_over := true,
                        winner := some winner_color } }
      ({ mgr with rooms := alistSet mgr.rooms room_id room1 },
       room1.broadcast (Msg.game_over (some winner_color) "timeout"))

end RoomManager

/-! ## `app/ws_handler.py`: the websocket dispatcher -/

/-- Client → server messages, from `app/models.py` (the parsed forms). -/
inductive ClientMsg where
  | create_room
  | join_room (room_id : String)
  | place_stone (row col : Int)
  | leave_room
  | reconnect (room_id player_token : String)
  deriving Repr, DecidableEq

/-- The `type` discriminator of a parsed client message. -/
def ClientMsg.msgType : ClientMsg → String
  | .create_room => "create_room"
  | .join_room _ => "join_room"
  | .place_stone _ _ => "place_stone"
  | .leave_room => "leave_room"
  | .reconnect _ _ => "reconnect"

/-- What the `websocket_endpoint` loop does with one parsed message:
which `RoomManager` operation it invokes, or which reply it sends
instead. -/
inductive DispatchAction where
  | callCreateRoom
  | callJoinRoom (room_id : String)
  | callHandleDisconnect
  | replyNotImplemented (msg_type : String)
  deriving Repr, DecidableEq

/-- The `isinstance` dispatch chain of `websocket_endpoint` in
`app/ws_handler.py`: `CreateRoomMsg`, `JoinRoomMsg` and `LeaveRoomMsg`
are routed to the room manager; every other parsed message falls to the
final `else`, which replies with the error text
`Handler for <msg.type> not yet implemented` (rendered as
`replyNotImplemented` carrying `msg.type`). -/
def websocket_dispatch : ClientMsg → DispatchAction
  | .create_room => .callCreateRoom
  | .join_room rid => .callJoinRoom rid
  | .leave_room => .callHandleDisconnect
  | m => .replyNotImplemented m.msgType

/-! ## Helper lemmas -/

theorem alistGet_alistSet_self {α β : Type} [BEq α] [LawfulBEq α]
    (l : List (α × β)) (k : α) (v : β) :
    alistGet (alistSet l k v) k = some v := by
  induction l with
  | nil => simp [alistGet, alistSet, List.find?]
  | cons e rest ih =>
    by_cases h : e.1 = k
    · simp [alistGet, alistSet, h, List.find?]
    · have hne : (e.1 == k) = false := by simpa using h
      unfold alistSet
      rw [hne]
      simp only [Bool.false_eq_true, if_false]
      unfold alistGet at ih ⊢
      rwa [List.find?_cons_of_neg _ (by simp [h])]

theorem alistGet_eq_none_of_no_key {α β : Type} [BEq α] [LawfulBEq α]
    (l : List (α × β)) (k : α) (h : ∀ e ∈ l, e.1 ≠ k) :
    alistGet l k = none := by
  unfold alistGet
  rw [List.find?_eq_none.mpr]
  · rfl
  · intro e he
    simpa using h e he

theorem row_len_of_BoardWF {b : Board} (hwf : BoardWF b) {r : Nat}
    (hr : r < BOARD_SIZE) : (b.getD r []).length = BOARD_SIZE := by
  obtain ⟨hlen, hrows⟩ := hwf
  have hr' : r < b.length := by omega
  rw [List.getD_eq_getElem?_getD, List.getElem?_eq_getElem hr']
  exact hrows _ (b.getElem_mem hr')

theorem boardGet_boardSet_self (b : Board) (r c : Nat) (v : Cell)
    (hr : r < b.length) (hc : c < (b.getD r []).length) :
    boardGet (boardSet b r c v) r c = v := by
  have h1 : (boardSet b r c v).getD r [] = (b.getD r []).set c v := by
    unfold boardSet
    rw [List.getD_eq_getElem?_getD, List.getElem?_set_self (by simpa using hr)]
    rfl
  unfold boardGet
  rw [h1, List.getD_eq_getElem?_getD, List.getElem?_set_self (by simpa using hc)]
  rfl

/-- `place_stone` on a winning move, as one equation. -/
theorem place_stone_of_win (g : GameState) (row col : Int) (color : String)
    (hwin : check_win (boardSet g.board row.toNat col.toNat (some color))
      row col = true) :
    g.place_stone row col color
      = ({ g with board := boardSet g.board row.toNat col.toNat (some color),
                  move_count := g.move_count + 1,
                  is_game_over := true, winner := some color }, true) := by
  simp [GameState.place_stone, hwin]

/-- `place_stone` on a non-winning move that fills the board. -/
theorem place_stone_of_draw (g : GameState) (row col : Int) (color : String)
    (hwin : check_win (boardSet g.board row.toNat col.toNat (some color))
      row col = false)
    (hfull : BOARD_SIZE * BOARD_SIZE ≤ g.move_count + 1) :
    g.place_stone row col color
      = ({ g with board := boardSet g.board row.toNat col.toNat (some color),
                  move_count := g.move_count + 1,
                  is_game_over := true, winner := none }, true) := by
  simp [GameState.place_stone, GameState.is_draw, hwin, hfull]

/-- `place_stone` on a non-terminal move. -/
theorem place_stone_of_continue (g : GameState) (row col : Int) (color : String)
    (hwin : check_win (boardSet g.board row.toNat col.toNat (some color))
      row col = false)
    (hfull : ¬ BOARD_SIZE * BOARD_SIZE ≤ g.move_count + 1) :
    g.place_stone row col color
      = ({ g with board := boardSet g.board row.toNat col.toNat (some color),
                  move_count := g.move_count + 1,
                  current_turn := if color = "black" then "white" else "black" },
         false) := by
  simp [GameState.place_stone, GameState.is_draw, hwin, hfull]

/-! ## Claims -/

/-- C2: the websocket endpoint does NOT route `place_stone` or `reconnect`
to the Room Directory: both fall through the `isinstance` chain of
`websocket_endpoint` (`app/ws_handler.py`) to the final `else`, which
replies with a "not yet implemented" error instead of invoking
`RoomManager.place_stone` / `RoomManager.reconnect`.  This theorem
evaluates the dispatcher at the failing inputs; the repository's own
`tests/test_ws.py` (`test_full_game_flow`, `test_wrong_turn_rejected`)
requires these messages to be routed, so the dispatcher contradicts the
repository's own tests. -/
theorem place_stone_and_reconnect_not_routed :
    websocket_dispatch (ClientMsg.place_stone 7 0)
        = DispatchAction.replyNotImplemented "place_stone"
      ∧ websocket_dispatch (ClientMsg.reconnect "abc123" "tok-1")
        = DispatchAction.replyNotImplemented "reconnect"
      ∧ (∀ row col : Int, ∀ rid tok : String,
          websocket_dispatch (ClientMsg.place_stone row col)
              = DispatchAction.replyNotImplemented "place_stone"
            ∧ websocket_dispatch (ClientMsg.reconnect rid tok)
              = DispatchAction.replyNotImplemented "reconnect") :=
  ⟨rfl, rfl, fun _ _ _ _ => ⟨rfl, rfl⟩⟩

/-- A cell that lies on the board and holds a stone of `color` (the
condition under which a `check_win` scan arm keeps counting). -/
def goodCell (b : Board) (color : String) (r c : Int) : Prop :=
  ¬(r < 0 ∨ (BOARD_SIZE : Int) ≤ r ∨ c < 0 ∨ (BOARD_SIZE : Int) ≤ c)
  ∧ boardGet b r.toNat c.toNat = some color

theorem scanDir_le (b : Board) (color : String) (dr dc : Int) :
    ∀ (n : Nat) (r c : Int), scanDir b color dr dc r c n ≤ n := by
  intro n
  induction n with
  | zero => intro r c; simp [scanDir]
  | succ n ih =>
    intro r c
    unfold scanDir
    split
    · omega
    · split
      · omega
      · have := ih (r + dr) (c + dc)
        omega

/-- Every position the scan has counted is in bounds and same-colored. -/
theorem scanDir_sound (b : Board) (color : String) (dr dc : Int) :
    ∀ (n : Nat) (r c : Int) (k : Nat), 1 ≤ k →
      k ≤ scanDir b color dr dc r c n →
      goodCell b color (r + dr * k) (c + dc * k) := by
  intro n
  induction n with
  | zero =>
    intro r c k h1 h2
    simp [scanDir] at h2
    omega
  | succ n ih =>
    intro r c k h1 h2
    unfold scanDir at h2
    by_cases hb : r + dr < 0 ∨ (BOARD_SIZE : Int) ≤ r + dr
        ∨ c + dc < 0 ∨ (BOARD_SIZE : Int) ≤ c + dc
    · rw [if_pos hb] at h2; omega
    · rw [if_neg hb] at h2
      by_cases hc : boardGet b (r + dr).toNat (c + dc).toNat ≠ some color
      · rw [if_pos hc] at h2; omega
      · rw [if_neg hc] at h2
        push_neg at hc
        rcases Nat.eq_or_lt_of_le h1 with h1' | h1'
        · subst h1'
          simp only [Nat.cast_one, mul_one]
          exact ⟨hb, hc⟩
        · have hk : k - 1 ≤ scanDir b color dr dc (r + dr) (c + dc) n := by
            omega
          have hgood := ih (r + dr) (c + dc) (k - 1) (by omega) hk
          have hcast : ((k - 1 : Nat) : Int) = (k : Int) - 1 := by omega
          rw [hcast] at hgood
          have e1 : r + dr + dr * ((k : Int) - 1) = r + dr * (k : Int) := by
            ring
          have e2 : c + dc + dc * ((k : Int) - 1) = c + dc * (k : Int) := by
            ring
          rwa [e1, e2] at hgood

/-- If the first `a ≤ n` positions along the direction are in bounds and
same-colored, the scan counts at least `a`. -/
theorem scanDir_complete (b : Board) (color : String) (dr dc : Int) :
    ∀ (n : Nat) (r c : Int) (a : Nat), a ≤ n →
      (∀ k : Nat, 1 ≤ k → k ≤ a → goodCell b color (r + dr * k) (c + dc * k)) →
      a ≤ scanDir b color dr dc r c n := by
  intro n
  induction n with
  | zero => intro r c a ha _; omega
  | succ n ih =>
    intro r c a ha hgood
    match a with
    | 0 => omega
    | a' + 1 =>
      have h1 := hgood 1 le_rfl (by omega)
      simp only [Nat.cast_one, mul_one] at h1
      obtain ⟨hb, hc⟩ := h1
      unfold scanDir
      rw [if_neg hb, if_neg (by simp [hc])]
      have htail : a' ≤ scanDir b color dr dc (r + dr) (c + dc) n := by
        apply ih _ _ _ (by omega)
        intro k hk1 hk2
        have hgk := hgood (k + 1) (by omega) (by omega)
        have e1 : r + dr * ((k + 1 : Nat) : Int) = (r + dr) + dr * (k : Int) := by
          push_cast; ring
        have e2 : c + dc * ((k + 1 : Nat) : Int) = (c + dc) + dc * (k : Int) := by
          push_cast; ring
        rwa [e1, e2] at hgk
      omega

/-- The claim's win condition, stated from the spec's words: along one of
the four orientations there is a contiguous run of at least 5 stones of
`color` through `(row, col)`, counting at most 4 cells outward in each of
the two directions of the orientation. -/
def RunThrough (b : Board) (color : String) (row col dr dc : Int) : Prop :=
  ∃ a bk : Nat, a ≤ 4 ∧ bk ≤ 4 ∧ 5 ≤ a + bk + 1
    ∧ (∀ k : Nat, 1 ≤ k → k ≤ a → goodCell b color (row + dr * k) (col + dc * k))
    ∧ (∀ k : Nat, 1 ≤ k → k ≤ bk →
        goodCell b color (row + (-dr) * k) (col + (-dc) * k))

/-- The spec-side win predicate for a stone of `color` at `(row, col)`. -/
def WinSpec (b : Board) (row col : Int) (color : String) : Prop :=
  ∃ d ∈ DIRECTIONS, RunThrough b color row col d.1 d.2

/-- C3: after a stone of color `C` is placed at `(row, col)`, `check_win`
reports a win iff one of the four orientations holds a contiguous run of
at least 5 stones of `C` through `(row, col)`, scanning at most 4 cells
outward each way.  (In particular a blocked four-in-a-row, which admits no
such run, does not end the game — see the witness.) -/
theorem check_win_iff_five_run (b : Board) (row col : Int) (color : String)
    (hcell : boardGet b row.toNat col.toNat = some color) :
    check_win b row col = true ↔ WinSpec b row col color := by
  unfold check_win
  rw [hcell]
  simp only [List.any_eq_true, decide_eq_true_eq]
  constructor
  · rintro ⟨d, hd, h5⟩
    exact ⟨d, hd, scanDir b color d.1 d.2 row col 4,
      scanDir b color (-d.1) (-d.2) row col 4,
      scanDir_le b color d.1 d.2 4 row col,
      scanDir_le b color (-d.1) (-d.2) 4 row col, by omega,
      fun k h1 h2 => scanDir_sound b color d.1 d.2 4 row col k h1 h2,
      fun k h1 h2 => scanDir_sound b color (-d.1) (-d.2) 4 row col k h1 h2⟩
  · rintro ⟨d, hd, a, bk, ha, hbk, hsum, hpos, hneg⟩
    refine ⟨d, hd, ?_⟩
    have h1 := scanDir_complete b color d.1 d.2 4 row col a (by omega) hpos
    have h2 := scanDir_complete b color (-d.1) (-d.2) 4 row col bk (by omega) hneg
    omega

/-- Five black stones at (7,0)…(7,4) on an otherwise empty board. -/
def demoBoard : Board :=
  boardSet (boardSet (boardSet (boardSet (boardSet GameState.init.board
    7 0 (some "black")) 7 1 (some "black")) 7 2 (some "black"))
    7 3 (some "black")) 7 4 (some "black")

/-- Four black stones at (7,0)…(7,3), blocked by white at (7,4): a
four-in-a-row whose extensions are a wall and an opposing stone. -/
def blockedBoard : Board :=
  boardSet (boardSet (boardSet (boardSet (boardSet GameState.init.board
    7 0 (some "black")) 7 1 (some "black")) 7 2 (some "black"))
    7 3 (some "black")) 7 4 (some "white")

/-- Witness for C3: the run predicate holds for the completed five at
(7,4); and the blocked four-in-a-row at (7,3) is not a win, hence by the
theorem admits no qualifying run. -/
theorem check_win_iff_five_run_witness :
    WinSpec demoBoard 7 4 "black"
    ∧ check_win blockedBoard 7 3 = false
    ∧ ¬ WinSpec blockedBoard 7 3 "black" := by
  refine ⟨(check_win_iff_five_run demoBoard 7 4 "black" (by decide)).mp
    (by decide), by decide, fun hw => ?_⟩
  have := (check_win_iff_five_run blockedBoard 7 3 "black" (by decide)).mpr hw
  simp [show check_win blockedBoard 7 3 = false by decide] at this

/-- C4: `place_stone` postcondition on a non-terminated game with a
validated move: the stone is written, `move_count` goes up by exactly one,
then win ⇒ game over with the mover as winner and `true` returned,
else full board (`move_count = 225`) ⇒ draw (`winner = none`, `true`),
else the turn flips and `false` is returned. -/
theorem place_stone_postcondition (g : GameState) (row col : Int)
    (color : String) (hwf : BoardWF g.board) (hgo : g.is_game_over = false)
    (hr0 : 0 ≤ row) (hr : row < (BOARD_SIZE : Int))
    (hc0 : 0 ≤ col) (hc : col < (BOARD_SIZE : Int))
    (hmc : g.move_count < BOARD_SIZE * BOARD_SIZE) :
    (g.place_stone row col color).1.board
        = boardSet g.board row.toNat col.toNat (some color)
    ∧ boardGet (g.place_stone row col color).1.board row.toNat col.toNat
        = some color
    ∧ (g.place_stone row col color).1.move_count = g.move_count + 1
    ∧ (check_win (boardSet g.board row.toNat col.toNat (some color)) row col
          = true →
        (g.place_stone row col color).1.is_game_over = true
        ∧ (g.place_stone row col color).1.winner = some color
        ∧ (g.place_stone row col color).2 = true)
    ∧ (check_win (boardSet g.board row.toNat col.toNat (some color)) row col
          = false →
        (g.move_count + 1 = BOARD_SIZE * BOARD_SIZE →
          (g.place_stone row col color).1.is_game_over = true
          ∧ (g.place_stone row col color).1.winner = none
          ∧ (g.place_stone row col color).2 = true)
        ∧ (g.move_count + 1 ≠ BOARD_SIZE * BOARD_SIZE →
          (g.place_stone row col color).1.current_turn
              = (if color = "black" then "white" else "black")
          ∧ (g.place_stone row col color).1.is_game_over = false
          ∧ (g.place_stone row col color).1.winner = g.winner
          ∧ (g.place_stone row col color).2 = false)) := by
  have hB : BOARD_SIZE = 15 := rfl
  have hget : boardGet (boardSet g.board row.toNat col.toNat (some color))
      row.toNat col.toNat = some color := by
    refine boardGet_boardSet_self _ _ _ _ ?_ ?_
    · rw [hwf.1]; omega
    · rw [row_len_of_BoardWF hwf (by omega)]; omega
  by_cases hwin : check_win (boardSet g.board row.toNat col.toNat (some color))
      row col = true
  · rw [place_stone_of_win g row col color hwin]
    exact ⟨rfl, hget, rfl, fun _ => ⟨rfl, rfl, rfl⟩,
      fun hfalse => absurd hwin (by simp [hfalse])⟩
  · have hwin' : check_win (boardSet g.board row.toNat col.toNat (some color))
        row col = false := by simpa using hwin
    by_cases hfull : g.move_count + 1 = BOARD_SIZE * BOARD_SIZE
    · rw [place_stone_of_draw g row col color hwin' (by omega)]
      refine ⟨rfl, hget, rfl, fun htrue => absurd htrue hwin, fun _ => ?_⟩
      exact ⟨fun _ => ⟨rfl, rfl, rfl⟩, fun hne => absurd hfull hne⟩
    · rw [place_stone_of_continue g row col color hwin' (by omega)]
      refine ⟨rfl, hget, rfl, fun htrue => absurd htrue hwin, fun _ => ?_⟩
      exact ⟨fun heq => absurd heq hfull, fun _ => ⟨rfl, hgo, rfl, rfl⟩⟩

/-- Witness for C4 at a concrete input: black plays (7, 7) on the fresh
board. -/
theorem place_stone_postcondition_witness :
    (GameState.init.place_stone 7 7 "black").1.move_count = 1
    ∧ (GameState.init.place_stone 7 7 "black").1.current_turn = "white"
    ∧ (GameState.init.place_stone 7 7 "black").2 = false := by
  have h := place_stone_postcondition GameState.init 7 7 "black"
    (by constructor <;> simp [GameState.init, BOARD_SIZE])
    (by decide) (by decide) (by decide) (by decide) (by decide) (by decide)
  refine ⟨h.2.2.1, ?_, ?_⟩
  · have := (h.2.2.2.2 (by decide)).2 (by decide)
    simpa using this.1
  · exact ((h.2.2.2.2 (by decide)).2 (by decide)).2.2.2

/-- A connected black creator, for concrete instances. -/
def playerB : Player := { ws := 1, token := "tok-b", color := "black" }

/-- A connected white joiner, for concrete instances. -/
def playerW : Player := { ws := 2, token := "tok-w", color := "white" }

/-- A started two-player room, game in progress. -/
def pairedRoom : Room :=
  { room_id := "abc12f", players := [playerB, playerW],
    game_started := true, turn_timer_active := true, turn_timer_start := 10 }

/-- A manager holding just `pairedRoom`. -/
def pairedMgr : ManagerState :=
  { rooms := [("abc12f", pairedRoom)],
    ws_to_room := [(1, "abc12f"), (2, "abc12f")] }

/-- `pairedRoom` after the game has ended (black won). -/
def overRoom : Room :=
  { pairedRoom with
      game := { GameState.init with is_game_over := true,
                                    winner := some "black" } }

/-- A manager holding just `overRoom`. -/
def overMgr : ManagerState :=
  { rooms := [("abc12f", overRoom)],
    ws_to_room := [(1, "abc12f"), (2, "abc12f")] }

/-- A one-player room that was never joined. -/
def soloRoom : Room := { room_id := "abc12f", players := [playerB] }

/-- A manager holding just `soloRoom`. -/
def soloMgr : ManagerState :=
  { rooms := [("abc12f", soloRoom)], ws_to_room := [(1, "abc12f")] }

/-- The terminal write the Turn Clock's expiry block performs on a room:
game over, winner = the color opposite the one on turn. -/
def timeoutUpdate (room : Room) : Room :=
  { room with
      game := { room.game with
                  is_game_over := true,
                  winner := some (if room.game.current_turn = "black"
                    then "white" else "black") } }

/-- C6: when the Turn Clock's countdown reaches zero and the game has not
ended, the expiry body of `timer_loop` marks the game over with the color
on turn as loser — the winner is the other color — and broadcasts
`game_over` with reason "timeout" to the room; nothing else of the room
changes. -/
theorem timer_expiry_timeout_loss (mgr : ManagerState) (room_id : String)
    (room : Room) (hroom : alistGet mgr.rooms room_id = some room)
    (hover : room.game.is_game_over = false) :
    RoomManager.timer_loop_expire mgr room_id
      = ({ mgr with rooms := alistSet mgr.rooms room_id (timeoutUpdate room) },
         (timeoutUpdate room).broadcast
           (Msg.game_over
             (some (if room.game.current_turn = "black"
               then "white" else "black")) "timeout"))
    ∧ (timeoutUpdate room).game.is_game_over = true
    ∧ (timeoutUpdate room).game.winner
        = some (if room.game.current_turn = "black" then "white" else "black")
    ∧ (timeoutUpdate room).game.board = room.game.board
    ∧ (timeoutUpdate room).game.move_count = room.game.move_count
    ∧ (timeoutUpdate room).game.current_turn = room.game.current_turn
    ∧ (timeoutUpdate room).players = room.players :=
  ⟨by simp [RoomManager.timer_loop_expire, hroom, hover, timeoutUpdate],
   rfl, rfl, rfl, rfl, rfl, rfl⟩

/-- `pairedRoom` after a timeout on black's first turn: white wins. -/
def timedOutRoom : Room :=
  { pairedRoom with
      game := { GameState.init with
                  is_game_over := true, winner := some "white" } }

/-- Witness for C6: the paired room times out on black's turn; white is
declared winner and both players get the timeout `game_over`. -/
theorem timer_expiry_timeout_loss_witness :
    RoomManager.timer_loop_expire pairedMgr "abc12f"
      = ({ rooms := [("abc12f", timedOutRoom)],
           ws_to_room := [(1, "abc12f"), (2, "abc12f")] },
         [(1, Msg.game_over (some "white") "timeout"),
          (2, Msg.game_over (some "white") "timeout")]) := by
  have h := timer_expiry_timeout_loss pairedMgr "abc12f" pairedRoom
    (by decide) (by decide)
  exact h.1.trans (by decide)

/-- C1: once `is_game_over` is set, no operation mutates the game again:
move submission returns the manager unchanged (validation fails with
`GameOver`); the Turn Clock's expiry body does nothing; the Disconnect
Guard's expiry body sends nothing and at most unregisters the room,
leaving every stored game untouched. -/
theorem terminal_transition_at_most_once :
    ∀ (mgr : ManagerState) (ws : Nat) (row col now : Int)
      (room_id player_token opponent_color : String),
    ((∀ room, RoomManager.get_room_for_ws mgr ws = some room →
        room.game.is_game_over = true) →
      (RoomManager.place_stone mgr ws row col now).1 = mgr)
    ∧ (∀ room, alistGet mgr.rooms room_id = some room →
        room.game.is_game_over = true →
        RoomManager.timer_loop_expire mgr room_id = (mgr, []))
    ∧ (∀ room, alistGet mgr.rooms room_id = some room →
        room.game.is_game_over = true →
        (RoomManager.cleanup_after_timeout mgr room_id player_token
            opponent_color).2 = []
        ∧ ((RoomManager.cleanup_after_timeout mgr room_id player_token
              opponent_color).1 = mgr
          ∨ (RoomManager.cleanup_after_timeout mgr room_id player_token
              opponent_color).1
            = { mgr with rooms := alistRemove mgr.rooms room_id })) := by
  intro mgr ws row col now room_id player_token opponent_color
  refine ⟨?_, ?_, ?_⟩
  · intro hover
    cases hws : alistGet mgr.ws_to_room ws with
    | none => simp [RoomManager.place_stone, hws]
    | some rid =>
      cases hrm : alistGet mgr.rooms rid with
      | none => simp [RoomManager.place_stone, hws, hrm]
      | some room =>
        have hgo : room.game.is_game_over = true :=
          hover room (by simp [RoomManager.get_room_for_ws, hws, hrm])
        cases hst : room.game_started with
        | false => simp [RoomManager.place_stone, hws, hrm, hst]
        | true =>
          cases hpl : room.get_player_by_ws ws with
          | none => simp [RoomManager.place_stone, hws, hrm, hst, hpl]
          | some player =>
            have hval : room.game.validate_move row col player.color
                = some "Game is already over" := by
              unfold GameState.validate_move
              rw [if_pos hgo]
            simp [RoomManager.place_stone, hws, hrm, hst, hpl, hval]
  · intro room hroom hgo
    simp [RoomManager.timer_loop_expire, hroom, hgo]
  · intro room hroom hgo
    cases hp : room.get_player_by_token player_token with
    | none =>
      refine ⟨?_, Or.inl ?_⟩ <;>
        simp [RoomManager.cleanup_after_timeout, hroom, hp]
    | some player =>
      cases hc : player.connected with
      | true =>
        refine ⟨?_, Or.inl ?_⟩ <;>
          simp [RoomManager.cleanup_after_timeout, hroom, hp, hc]
      | false =>
        refine ⟨?_, Or.inr ?_⟩ <;>
          simp [RoomManager.cleanup_after_timeout, hroom, hp, hc, hgo,
            RoomManager.cleanup_room]

/-- Witness for C1: on the finished room, a move submission leaves the
manager untouched, the Turn Clock expiry does nothing, and the Disconnect
Guard expiry broadcasts nothing. -/
theorem terminal_transition_at_most_once_witness :
    (RoomManager.place_stone overMgr 1 0 0 99).1 = overMgr
    ∧ RoomManager.timer_loop_expire overMgr "abc12f" = (overMgr, [])
    ∧ (RoomManager.cleanup_after_timeout overMgr "abc12f" "tok-b"
        "white").2 = [] := by
  have h := terminal_transition_at_most_once overMgr 1 0 0 99 "abc12f"
    "tok-b" "white"
  refine ⟨h.1 ?_, h.2.1 overRoom (by decide) (by decide),
    (h.2.2 overRoom (by decide) (by decide)).1⟩
  intro room hr
  have he : RoomManager.get_room_for_ws overMgr 1 = some overRoom := by decide
  rw [he] at hr
  cases hr
  decide

/-- The terminal write the Disconnect Guard's expiry body performs on a
room: game over, winner = the opponent's color. -/
def disconnectUpdate (room : Room) (opponent_color : String) : Room :=
  { room with
      game := { room.game with
                  is_game_over := true,
                  winner := some opponent_color } }

/-- Counterexample for C7: black disconnects from the paired room, white
stays; when the Disconnect Guard expires, the room is removed from the
directory, but white's entry in the connection-to-room mapping survives —
teardown does not remove the room from the connection-to-room mapping. -/
theorem cleanup_keeps_ws_mapping_cex :
    (RoomManager.cleanup_after_timeout
        (RoomManager.handle_disconnect pairedMgr 1).1
        "abc12f" "tok-b" "white").1.rooms = []
    ∧ (RoomManager.cleanup_after_timeout
        (RoomManager.handle_disconnect pairedMgr 1).1
        "abc12f" "tok-b" "white").1.ws_to_room = [(2, "abc12f")] :=
  ⟨by decide, by decide⟩

/-- C7 (amended): on disconnect of either participant — the first-listed
creator or the second-listed joiner — with a connected opponent, the
opponent is notified and a Disconnect Guard is registered for the leaver;
at guard expiry with the leaver still disconnected on a started,
unfinished game, the opponent wins with reason "disconnect" and the room
is dropped from the directory — the connection-to-room mapping, however,
is left as it was by teardown (only the disconnecting connection's own
entry was dropped, when the disconnect was handled).  Without a connected
opponent (solo room, or the other participant already disconnected,
whichever position the leaver holds) the room is torn down immediately
and no guard is registered. -/
theorem disconnect_guard_behavior :
    ∀ (mgr : ManagerState) (ws : Nat) (room_id : String) (room : Room)
      (pA pB : Player) (tok oppc : String) (player : Player),
    (room.players = [pA, pB] → pA.ws = ws → pA.token ≠ pB.token →
     pB.connected = true →
     alistGet mgr.ws_to_room ws = some room_id →
     alistGet mgr.rooms room_id = some room →
     RoomManager.handle_disconnect mgr ws
       = ({ rooms := alistSet mgr.rooms room_id
              { room with
                  players := [{ pA with connected := false }, pB],
                  disconnect_tasks := room.disconnect_tasks ++ [pA.token] },
            ws_to_room := alistRemove mgr.ws_to_room ws },
          [(pB.ws, Msg.opponent_disconnected)]))
    ∧ (room.players = [pA, pB] → pB.ws = ws → pA.ws ≠ ws →
       pA.token ≠ pB.token → pA.connected = true →
       alistGet mgr.ws_to_room ws = some room_id →
       alistGet mgr.rooms room_id = some room →
       RoomManager.handle_disconnect mgr ws
         = ({ rooms := alistSet mgr.rooms room_id
                { room with
                    players := [pA, { pB with connected := false }],
                    disconnect_tasks := room.disconnect_tasks ++ [pB.token] },
              ws_to_room := alistRemove mgr.ws_to_room ws },
            [(pA.ws, Msg.opponent_disconnected)]))
    ∧ (alistGet mgr.rooms room_id = some room →
       room.get_player_by_token tok = some player →
       player.connected = false →
       room.game.is_game_over = false →
       room.game_started = true →
       RoomManager.cleanup_after_timeout mgr room_id tok oppc
         = ({ rooms := alistRemove
                (alistSet mgr.rooms room_id (disconnectUpdate room oppc))
                room_id,
              ws_to_room := mgr.ws_to_room },
            (disconnectUpdate room oppc).broadcast
              (Msg.game_over (some oppc) "disconnect")))
    ∧ (room.players = [pA] → pA.ws = ws →
       alistGet mgr.ws_to_room ws = some room_id →
       alistGet mgr.rooms room_id = some room →
       RoomManager.handle_disconnect mgr ws
         = ({ rooms := alistRemove mgr.rooms room_id,
              ws_to_room := alistRemove mgr.ws_to_room ws }, []))
    ∧ (room.players = [pA, pB] → pA.ws = ws → pA.token ≠ pB.token →
       pB.connected = false →
       alistGet mgr.ws_to_room ws = some room_id →
       alistGet mgr.rooms room_id = some room →
       RoomManager.handle_disconnect mgr ws
         = ({ rooms := alistRemove mgr.rooms room_id,
              ws_to_room := alistRemove mgr.ws_to_room ws }, []))
    ∧ (room.players = [pA, pB] → pB.ws = ws → pA.ws ≠ ws →
       pA.token ≠ pB.token → pA.connected = false →
       alistGet mgr.ws_to_room ws = some room_id →
       alistGet mgr.rooms room_id = some room →
       RoomManager.handle_disconnect mgr ws
         = ({ rooms := alistRemove mgr.rooms room_id,
              ws_to_room := alistRemove mgr.ws_to_room ws }, [])) := by
  intro mgr ws room_id room pA pB tok oppc player
  refine ⟨?_, ?_, ?_, ?_, ?_, ?_⟩
  · intro hps hws htok hconn hmap hroom
    subst hws
    have htok2 : (pB.token != pA.token) = true := by
      simp [bne_iff_ne]; exact Ne.symm htok
    simp [RoomManager.handle_disconnect, hmap, hroom, hps,
      Room.get_player_by_ws, Room.get_opponent, updatePlayerByWs,
      List.find?, htok2, hconn, Room.send_to]
  · intro hps hws hne htok hconn hmap hroom
    subst hws
    have hA : (pA.ws == pB.ws) = false := by simpa using hne
    have htokA : (pA.token != pB.token) = true := by
      simp [bne_iff_ne]; exact htok
    simp [RoomManager.handle_disconnect, hmap, hroom, hps,
      Room.get_player_by_ws, Room.get_opponent, updatePlayerByWs,
      List.find?, hA, htokA, hconn, Room.send_to]
  · intro hroom hptok hconn hover hstarted
    simp [RoomManager.cleanup_after_timeout, hroom, hptok, hconn, hover,
      hstarted, RoomManager.cleanup_room, disconnectUpdate]
  · intro hps hws hmap hroom
    subst hws
    simp [RoomManager.handle_disconnect, hmap, hroom, hps,
      Room.get_player_by_ws, Room.get_opponent, updatePlayerByWs,
      List.find?, RoomManager.cleanup_room]
  · intro hps hws htok hconn hmap hroom
    subst hws
    have htok2 : (pB.token != pA.token) = true := by
      simp [bne_iff_ne]; exact Ne.symm htok
    simp [RoomManager.handle_disconnect, hmap, hroom, hps,
      Room.get_player_by_ws, Room.get_opponent, updatePlayerByWs,
      List.find?, htok2, hconn, RoomManager.cleanup_room]
  · intro hps hws hne htok hconn hmap hroom
    subst hws
    have hA : (pA.ws == pB.ws) = false := by simpa using hne
    have htokA : (pA.token != pB.token) = true := by
      simp [bne_iff_ne]; exact htok
    simp [RoomManager.handle_disconnect, hmap, hroom, hps,
      Room.get_player_by_ws, Room.get_opponent, updatePlayerByWs,
      List.find?, hA, htokA, hconn, RoomManager.cleanup_room]

/-- `pairedRoom` right after black disconnected: black marked
disconnected and a guard registered under black's token. -/
def guardedRoom : Room :=
  { pairedRoom with
      players := [{ playerB with connected := false }, playerW],
      disconnect_tasks := ["tok-b"] }

/-- The manager right after black disconnected from `pairedMgr`. -/
def guardedMgr : ManagerState :=
  { rooms := [("abc12f", guardedRoom)], ws_to_room := [(2, "abc12f")] }

/-- `pairedRoom` right after white (the second-listed joiner)
disconnected: white marked disconnected and a guard registered under
white's token. -/
def guardedRoomW : Room :=
  { pairedRoom with
      players := [playerB, { playerW with connected := false }],
      disconnect_tasks := ["tok-w"] }

/-- The manager right after white disconnected from `pairedMgr`. -/
def guardedMgrW : ManagerState :=
  { rooms := [("abc12f", guardedRoomW)], ws_to_room := [(1, "abc12f")] }

/-- Witness for C7: black (first-listed) disconnects — guard registered,
white notified; white (second-listed) disconnects — guard registered,
black notified; a guard expires (white wins by "disconnect", room
dropped, white's mapping entry left behind); a solo disconnect tears down
at once; and black disconnecting after white is already gone tears the
room down with no guard. -/
theorem disconnect_guard_behavior_witness :
    RoomManager.handle_disconnect pairedMgr 1
      = (guardedMgr, [(2, Msg.opponent_disconnected)])
    ∧ RoomManager.handle_disconnect pairedMgr 2
      = (guardedMgrW, [(1, Msg.opponent_disconnected)])
    ∧ RoomManager.cleanup_after_timeout guardedMgr "abc12f" "tok-b" "white"
      = ({ rooms := [], ws_to_room := [(2, "abc12f")] },
         [(2, Msg.game_over (some "white") "disconnect")])
    ∧ RoomManager.handle_disconnect soloMgr 1
      = ({ rooms := [], ws_to_room := [] }, [])
    ∧ RoomManager.handle_disconnect guardedMgrW 1
      = ({ rooms := [], ws_to_room := [] }, []) := by
  refine ⟨?_, ?_, ?_, ?_, ?_⟩
  · exact ((disconnect_guard_behavior pairedMgr 1 "abc12f" pairedRoom
      playerB playerW "tok-b" "white" playerB).1 (by decide) (by decide)
      (by decide) (by decide) (by decide) (by decide)).trans (by decide)
  · exact ((disconnect_guard_behavior pairedMgr 2 "abc12f" pairedRoom
      playerB playerW "tok-w" "black" playerW).2.1 (by decide) (by decide)
      (by decide) (by decide) (by decide) (by decide)
      (by decide)).trans (by decide)
  · exact ((disconnect_guard_behavior guardedMgr 1 "abc12f" guardedRoom
      playerB playerW "tok-b" "white"
      { playerB with connected := false }).2.2.1 (by decide) (by decide)
      (by decide) (by decide) (by decide)).trans (by decide)
  · exact ((disconnect_guard_behavior soloMgr 1 "abc12f" soloRoom
      playerB playerW "tok-b" "white" playerB).2.2.2.1 (by decide)
      (by decide) (by decide) (by decide)).trans (by decide)
  · exact ((disconnect_guard_behavior guardedMgrW 1 "abc12f" guardedRoomW
      playerB { playerW with connected := false } "tok-b" "white"
      playerB).2.2.2.2.1 (by decide) (by decide) (by decide) (by decide)
      (by decide) (by decide)).trans (by decide)

/-- Updating the player found by token leaves it findable, updated, when
the update preserves the token. -/
theorem find_token_after_update (ps : List Player) (tok : String)
    (f : Player → Player) (player : Player)
    (hfound : ps.find? (fun p => p.token == tok) = some player)
    (hpres : (f player).token = player.token) :
    (updatePlayerByToken ps tok f).find? (fun p => p.token == tok)
      = some (f player) := by
  induction ps with
  | nil => simp [List.find?] at hfound
  | cons q rest ih =>
    by_cases hq : q.token = tok
    · rw [List.find?_cons_of_pos _ (by simpa using hq)] at hfound
      cases hfound
      unfold updatePlayerByToken
      rw [if_pos (by simpa using hq)]
      exact List.find?_cons_of_pos _ (by rw [hpres]; simpa using hq)
    · rw [List.find?_cons_of_neg _ (by simpa using hq)] at hfound
      unfold updatePlayerByToken
      rw [if_neg (by simpa using hq)]
      rw [List.find?_cons_of_neg _ (by simpa using hq)]
      exact ih hfound

/-- The room state `reconnect` installs: guard token dropped, the player
with that token given the new connection handle and marked connected. -/
def reconnectUpdate (room : Room) (ws : Nat) (player_token : String) : Room :=
  { room with
      disconnect_tasks := room.disconnect_tasks.erase player_token,
      players := updatePlayerByToken room.players player_token
        (fun p => { p with ws := ws, connected := true }) }

/-- C8: a reconnection with a valid token for an existing room cancels the
pending Disconnect Guard for that participant (its token is dropped from
the guard table) with no terminal transition (the game sub-state is the
very same value), installs the new connection handle with the participant
marked connected, registers the connection in the connection-to-room
mapping, and delivers first a `state_sync` whose board, turn and move
count are the Board Engine's current values, with the participant's own
color and the remaining turn time. -/
theorem reconnect_cancels_guard_and_syncs (mgr : ManagerState) (ws : Nat)
    (room_id tok : String) (room : Room) (player : Player) (now : Int)
    (hroom : alistGet mgr.rooms room_id = some room)
    (hplayer : room.get_player_by_token tok = some player) :
    (RoomManager.reconnect mgr ws room_id tok now).1
      = { rooms := alistSet mgr.rooms room_id (reconnectUpdate room ws tok),
          ws_to_room := alistSet mgr.ws_to_room ws room_id }
    ∧ (reconnectUpdate room ws tok).game = room.game
    ∧ (reconnectUpdate room ws tok).disconnect_tasks
      = room.disconnect_tasks.erase tok
    ∧ (reconnectUpdate room ws tok).get_player_by_token tok
      = some { player with ws := ws, connected := true }
    ∧ (RoomManager.reconnect mgr ws room_id tok now).2.head?
      = some (ws, Msg.state_sync room.game.board room.game.current_turn
          room.game.move_count player.color (room.timer_remaining now)) := by
  refine ⟨?_, rfl, rfl, ?_, ?_⟩
  · simp [RoomManager.reconnect, hroom, hplayer, reconnectUpdate]
  · exact find_token_after_update room.players tok _ player hplayer rfl
  · simp [RoomManager.reconnect, hroom, hplayer, Room.send_to,
      Room.timer_remaining]

/-- Witness for C8: black reconnects on a new handle (ws 9) while its
guard is pending in `guardedMgr`. -/
theorem reconnect_cancels_guard_and_syncs_witness :
    ((RoomManager.reconnect guardedMgr 9 "abc12f" "tok-b" 30).1
      = { rooms := [("abc12f",
            { pairedRoom with
                players := [{ playerB with ws := 9 }, playerW] })],
          ws_to_room := [(2, "abc12f"), (9, "abc12f")] })
    ∧ (RoomManager.reconnect guardedMgr 9 "abc12f" "tok-b" 30).2.head?
      = some (9, Msg.state_sync GameState.init.board "black" 0 "black" 10) := by
  have h := reconnect_cancels_guard_and_syncs guardedMgr 9 "abc12f" "tok-b"
    guardedRoom { playerB with connected := false } 30 (by decide) (by decide)
  exact ⟨h.1.trans (by decide), h.2.2.2.2.trans (by decide)⟩

/-- Counterexample for C9: room ids are matched case-sensitively — a join
whose `room_id` differs from the stored (lowercase) identifier only in
letter case fails with "Room not found" instead of resolving the room. -/
theorem join_room_case_sensitive_cex :
    RoomManager.join_room soloMgr 7 "ABC12F" "tok-w2" 50
      = (soloMgr, [(7, Msg.error "Room not found")]) := by decide

/-- C9 (amended): room-id resolution is an exact, case-sensitive string
match on the `rooms` dictionary: whenever no stored key equals the
requested id character-for-character — even if one matches up to letter
case — `join_room` and `reconnect` fail with "Room not found" and change
nothing. -/
theorem room_id_exact_match (mgr : ManagerState) (ws : Nat)
    (rid tok : String) (now : Int)
    (h : ∀ e ∈ mgr.rooms, e.1 ≠ rid) :
    RoomManager.join_room mgr ws rid tok now
      = (mgr, [(ws, Msg.error "Room not found")])
    ∧ RoomManager.reconnect mgr ws rid tok now
      = (mgr, [(ws, Msg.error "Room not found")]) := by
  have hnone : alistGet mgr.rooms rid = none :=
    alistGet_eq_none_of_no_key mgr.rooms rid h
  exact ⟨by simp [RoomManager.join_room, hnone],
    by simp [RoomManager.reconnect, hnone]⟩

/-- Witness for C9 (amended): the stored id is "abc12f"; the upper-cased
"ABC12F" matches no key exactly, so reconnect fails with RoomNotFound. -/
theorem room_id_exact_match_witness :
    RoomManager.reconnect soloMgr 7 "ABC12F" "tok-b" 50
      = (soloMgr, [(7, Msg.error "Room not found")]) :=
  (room_id_exact_match soloMgr 7 "ABC12F" "tok-b" 50 (by decide)).2

/-- C10: `reconnect` fails exactly when the room id is unknown
("Room not found") or the token matches no participant of the room
("Invalid player token"); with a valid token it succeeds even when the
participant is still marked connected — no error message is emitted, the
live handle is silently replaced by the new connection, and the game
sub-state is left unchanged. -/
theorem reconnect_failure_characterization (mgr : ManagerState) (ws : Nat)
    (room_id tok : String) (now : Int) :
    (alistGet mgr.rooms room_id = none →
      RoomManager.reconnect mgr ws room_id tok now
        = (mgr, [(ws, Msg.error "Room not found")]))
    ∧ (∀ room, alistGet mgr.rooms room_id = some room →
        room.get_player_by_token tok = none →
        RoomManager.reconnect mgr ws room_id tok now
          = (mgr, [(ws, Msg.error "Invalid player token")]))
    ∧ (∀ room player, alistGet mgr.rooms room_id = some room →
        room.get_player_by_token tok = some player →
        (∀ e ∈ (RoomManager.reconnect mgr ws room_id tok now).2,
          ∀ s, e.2 ≠ Msg.error s)
        ∧ (RoomManager.reconnect mgr ws room_id tok now).1
          = { rooms := alistSet mgr.rooms room_id
                (reconnectUpdate room ws tok),
              ws_to_room := alistSet mgr.ws_to_room ws room_id }
        ∧ (reconnectUpdate room ws tok).game = room.game
        ∧ (reconnectUpdate room ws tok).get_player_by_token tok
          = some { player with ws := ws, connected := true }) := by
  refine ⟨?_, ?_, ?_⟩
  · intro hnone
    simp [RoomManager.reconnect, hnone]
  · intro room hroom hnotok
    simp [RoomManager.reconnect, hroom, hnotok]
  · intro room player hroom hplayer
    refine ⟨?_, ?_, rfl,
      find_token_after_update room.players tok _ player hplayer rfl⟩
    · intro e he s
      revert he
      cases hopp : Room.get_opponent
          { room with
              disconnect_tasks := room.disconnect_tasks.erase tok,
              players := updatePlayerByToken room.players tok
                (fun p => { p with ws := ws, connected := true }) }
          { player with ws := ws, connected := true } with
      | none =>
        simp [RoomManager.reconnect, hroom, hplayer, Room.send_to, hopp]
        rintro rfl
        simp
      | some opp =>
        cases hc : opp.connected with
        | true =>
          simp [RoomManager.reconnect, hroom, hplayer, Room.send_to, hopp,
            hc]
          rintro (rfl | rfl) <;> simp
        | false =>
          simp [RoomManager.reconnect, hroom, hplayer, Room.send_to, hopp,
            hc]
          rintro rfl
          simp
    · simp [RoomManager.reconnect, hroom, hplayer, reconnectUpdate]

/-- Witness for C10: black reconnects on handle 9 while still connected on
handle 1 in `pairedMgr`; the reconnect succeeds, replaces the handle, and
leaves the game untouched. -/
theorem reconnect_failure_characterization_witness :
    (RoomManager.reconnect pairedMgr 9 "abc12f" "tok-b" 30).1
      = { rooms := [("abc12f",
            { pairedRoom with
                players := [{ playerB with ws := 9 }, playerW] })],
          ws_to_room := [(1, "abc12f"), (2, "abc12f"), (9, "abc12f")] }
    ∧ (∀ e ∈ (RoomManager.reconnect pairedMgr 9 "abc12f" "tok-b" 30).2,
        ∀ s, e.2 ≠ Msg.error s) := by
  have h := (reconnect_failure_characterization pairedMgr 9 "abc12f"
    "tok-b" 30).2.2 pairedRoom playerB (by decide) (by decide)
  exact ⟨h.2.1.trans (by decide), h.1⟩

/-- C5: `validate_move` rejects exactly the four error conditions, checked
in source order (game over, wrong turn, out of bounds, occupied cell), and
succeeds otherwise; and a move submission whose validation fails sends the
error text to the sender only and leaves the whole manager state — rooms,
games, connection mapping — unchanged. -/
theorem validate_move_and_rejection_spec (g : GameState) (row col : Int)
    (color : String) :
    (g.validate_move row col color = none ↔
      g.is_game_over = false ∧ color = g.current_turn
      ∧ (0 ≤ row ∧ row < (BOARD_SIZE : Int) ∧ 0 ≤ col ∧ col < (BOARD_SIZE : Int))
      ∧ boardGet g.board row.toNat col.toNat = none)
    ∧ (g.is_game_over = true →
        g.validate_move row col color = some "Game is already over")
    ∧ (g.is_game_over = false → color ≠ g.current_turn →
        g.validate_move row col color = some "Not your turn")
    ∧ (g.is_game_over = false → color = g.current_turn →
        (row < 0 ∨ (BOARD_SIZE : Int) ≤ row ∨ col < 0 ∨ (BOARD_SIZE : Int) ≤ col) →
        g.validate_move row col color = some "Coordinates out of bounds")
    ∧ (g.is_game_over = false → color = g.current_turn →
        ¬(row < 0 ∨ (BOARD_SIZE : Int) ≤ row ∨ col < 0 ∨ (BOARD_SIZE : Int) ≤ col) →
        boardGet g.board row.toNat col.toNat ≠ none →
        g.validate_move row col color = some "Cell is already occupied")
    ∧ (∀ (mgr : ManagerState) (ws : Nat) (room_id : String) (room : Room)
          (player : Player) (err : String) (now : Int),
        alistGet mgr.ws_to_room ws = some room_id →
        alistGet mgr.rooms room_id = some room →
        room.game_started = true →
        room.get_player_by_ws ws = some player →
        room.game.validate_move row col player.color = some err →
        RoomManager.place_stone mgr ws row col now
          = (mgr, [(ws, Msg.error err)])) := by
  refine ⟨?_, ?_, ?_, ?_, ?_, ?_⟩
  · unfold GameState.validate_move
    constructor
    · intro h
      by_cases h1 : g.is_game_over = true
      · rw [if_pos h1] at h; cases h
      · have h1' : g.is_game_over = false := by simpa using h1
        rw [if_neg (by simp [h1'])] at h
        by_cases h2 : color = g.current_turn
        · rw [if_neg (by simp [h2])] at h
          by_cases h3 : row < 0 ∨ (BOARD_SIZE : Int) ≤ row ∨ col < 0 ∨ (BOARD_SIZE : Int) ≤ col
          · rw [if_pos h3] at h; cases h
          · rw [if_neg h3] at h
            by_cases h4 : boardGet g.board row.toNat col.toNat = none
            · exact ⟨h1', h2, by push_neg at h3; omega, h4⟩
            · rw [if_pos (by simpa using h4)] at h; cases h
        · rw [if_pos (by simpa using h2)] at h; cases h
    · rintro ⟨h1, h2, ⟨hb1, hb2, hb3, hb4⟩, h4⟩
      rw [if_neg (by simp [h1]), if_neg (by simp [h2]),
        if_neg (by omega), if_neg (by simpa using h4)]
  · intro h; unfold GameState.validate_move; rw [if_pos h]
  · intro h1 h2; unfold GameState.validate_move
    rw [if_neg (by simp [h1]), if_pos h2]
  · intro h1 h2 h3; unfold GameState.validate_move
    rw [if_neg (by simp [h1]), if_neg (by simp [h2]), if_pos h3]
  · intro h1 h2 h3 h4; unfold GameState.validate_move
    rw [if_neg (by simp [h1]), if_neg (by simp [h2]), if_neg h3,
      if_pos (by simpa using h4)]
  · intro mgr ws room_id room player err now hws hroom hstarted hplayer hval
    simp [RoomManager.place_stone, hws, hroom, hstarted, hplayer, hval]

/-- Witness for C5: white moving first on a fresh room is rejected with
"Not your turn" and the manager state is untouched. -/
theorem validate_move_and_rejection_spec_witness :
    RoomManager.place_stone
      { rooms := [("abc12f",
          { room_id := "abc12f",
            players := [{ ws := 1, token := "tok-b", color := "black" },
                        { ws := 2, token := "tok-w", color := "white" }],
            game_started := true })],
        ws_to_room := [(1, "abc12f"), (2, "abc12f")] } 2 7 7 40
      = ({ rooms := [("abc12f",
             { room_id := "abc12f",
               players := [{ ws := 1, token := "tok-b", color := "black" },
                           { ws := 2, token := "tok-w", color := "white" }],
               game_started := true })],
           ws_to_room := [(1, "abc12f"), (2, "abc12f")] },
         [(2, Msg.error "Not your turn")]) := by
  exact (validate_move_and_rejection_spec GameState.init 7 7 "white").2.2.2.2.2
    _ 2 "abc12f"
    { room_id := "abc12f",
      players := [{ ws := 1, token := "tok-b", color := "black" },
                  { ws := 2, token := "tok-w", color := "white" }],
      game_started := true }
    { ws := 2, token := "tok-w", color := "white" }
    "Not your turn" 40 (by decide) (by decide) rfl (by decide) (by decide)

